import Mathlib

/-!
Shallow embedding of the identity and access management core of the
lancify backend (an Express + Prisma application), together with proofs
about its one-time-code service, token issuance, the request
authentication gate, and the signup/login flows.

Conventions of the embedding:
* Time is in milliseconds (`Nat`), mirroring `Date.now()` and the
  millisecond arithmetic in the source.
* The Prisma `emailOtp` table (unique key `email`) is a function
  `String → Option OtpRec`; `upsert` and `deleteMany` are pointwise
  updates, `findUnique` is application.
* The Prisma `user` table is a `List UserRec`; `findFirst` / `findUnique`
  are `List.find?`, `create` is append, `update` is a keyed map.
* JavaScript truthiness of possibly-absent strings is `truthy`:
  `undefined`/missing is `none`, the empty string is falsy.
* `Math.random()` inside `generateOTP` is modelled by the natural number
  `d = Math.floor(Math.random() * 900000)`, so `d < 900000`.
* bcrypt hashing is modelled by an injective tagging function; the
  bcrypt library rejects (throws) when the stored hash argument is
  `null`, modelled by `Except.error`.
* A JSON web token is a structured value carrying its payload, the
  signing secret and the absolute expiry instant; `jwt.verify` succeeds
  exactly when the secret matches and the token is not expired.
* Exceptions escaping an async handler are routed by the framework
  wrapper to the error middleware. The wrapper `asyncHandler` and the
  `ApiError.send` helper are not part of the available sources; per the
  specification (section 7) an unexpected thrown failure surfaces as a
  generic server error, modelled by the `thrown` outcome, while
  `ApiError.send res status msg` is modelled by the `apiErr` outcome.
-/

namespace Lancify

/-! ## JavaScript-style helpers -/

/-- Truthiness of an optional string: `undefined` and `""` are falsy. -/
def truthy : Option String → Bool
  | none => false
  | some s => s != ""

/-- Modelled abstraction of `validator.isEmail`: exactly one `@`
separating two nonempty parts, with a dot in the domain. The claims use
email validity only as an opaque boolean guard. -/
def isEmail (s : String) : Bool :=
  let cs := s.data
  let l := cs.takeWhile (fun c => c != '@')
  match cs.dropWhile (fun c => c != '@') with
  | '@' :: dom => !l.isEmpty && !dom.isEmpty && dom.contains '.' && !dom.contains '@'
  | _ => false

/-- Modelled abstraction of `validator.isStrongPassword` with its default
options: minimum length 8 and at least one lowercase letter, one
uppercase letter, one digit and one symbol. -/
def isStrongPassword (s : String) : Bool :=
  decide (8 ≤ s.data.length) && s.data.any Char.isLower && s.data.any Char.isUpper
    && s.data.any Char.isDigit && s.data.any (fun c => !c.isAlphanum)

/-- Modelled abstraction of `validator.isMobilePhone(_, "any")`, used only
as an opaque boolean guard. -/
def isMobilePhone (s : String) : Bool :=
  decide (10 ≤ s.data.length) && s.data.all Char.isDigit

/-! ## bcrypt (src/src/utils/lib.js, hashPassword / comparePassword) -/

/-- Deterministic injective model of `bcrypt.hash(password, 10)`. -/
def bcryptHash (p : String) : String := "bcrypt10$" ++ p

/-- `hashPassword`: throws when the password is absent or empty, otherwise
hashes (src/src/utils/lib.js lines 8-13). -/
def hashPassword (p : String) : Except String String :=
  if p = "" then .error "Password is required for hashing."
  else .ok (bcryptHash p)

/-- `comparePassword`: delegates to `bcrypt.compare(password, hash)`. The
bcrypt library rejects when the hash argument is `null` (its arguments
must be strings), which the embedding models as an error; with a stored
hash it reports whether the hash is the hash of the password
(src/src/utils/lib.js lines 15-17). -/
def comparePassword (p : String) (h : Option String) : Except String Bool :=
  match h with
  | none => .error "data and hash arguments required"
  | some hs => .ok (hs == bcryptHash p)

/-! ## Token issuer (src/src/utils/lib.js, generateAccessToken /
generateRefreshToken) and jwt.verify -/

/-- Claim set carried by a session token: access tokens carry id, email
and role; refresh tokens carry id and email only (`role := none`). -/
structure JwtPayload where
  id : Nat
  email : String
  role : Option String
deriving DecidableEq, Repr

/-- A signed token: payload plus the signing secret and the absolute
expiry instant in milliseconds (`jwt.sign` with `expiresIn`). -/
structure Jwt where
  payload : JwtPayload
  secret : String
  expiresAt : Nat
deriving DecidableEq, Repr

inductive JwtError
  | expired
  | invalid
deriving DecidableEq, Repr

/-- Model of `jwt.verify(token, secret)` at instant `now`: fails as
invalid when the secret differs, as expired when the expiry has passed,
and otherwise yields the decoded payload. -/
def jwtVerify (tok : Jwt) (secret : String) (now : Nat) : Except JwtError JwtPayload :=
  if tok.secret ≠ secret then .error .invalid
  else if tok.expiresAt ≤ now then .error .expired
  else .ok tok.payload

/-- `generateAccessToken(id, email, role)`: signs `{id, email, role}` with
the access-token secret (src/src/utils/lib.js lines 19-31). -/
def generateAccessToken (id : Nat) (email role accessSecret : String)
    (accessExpiresAt : Nat) : Jwt :=
  ⟨⟨id, email, some role⟩, accessSecret, accessExpiresAt⟩

/-- `generateRefreshToken(id, email)`: signs `{id, email}` with the
refresh-token secret (src/src/utils/lib.js lines 33-44). -/
def generateRefreshToken (id : Nat) (email refreshSecret : String)
    (refreshExpiresAt : Nat) : Jwt :=
  ⟨⟨id, email, none⟩, refreshSecret, refreshExpiresAt⟩

/-! ## One-time-code store (Prisma emailOtp table, unique key email) -/

structure OtpRec where
  otp : String
  expiresAt : Nat
deriving DecidableEq, Repr

/-- The `emailOtp` table keyed by its unique `email` column. -/
abbrev OtpStore := String → Option OtpRec

/-- `prisma.emailOtp.findUnique({ where: { email } })`. -/
def OtpStore.findUnique (st : OtpStore) (email : String) : Option OtpRec :=
  st email

/-- `prisma.emailOtp.upsert({ where: { email }, update, create })`: one
store operation that replaces any existing row for the email. -/
def OtpStore.upsert (st : OtpStore) (email : String) (r : OtpRec) : OtpStore :=
  fun e => if e = email then some r else st e

/-- `prisma.emailOtp.deleteMany({ where: { email } })`. -/
def OtpStore.deleteMany (st : OtpStore) (email : String) : OtpStore :=
  fun e => if e = email then none else st e

/-! ## One-time-code service (src/src/utils/lib.js lines 67-113) -/

/-- Numeric value produced by `generateOTP`:
`Math.floor(100000 + Math.random() * 900000)`, with the random draw
modelled by `d = Math.floor(Math.random() * 900000)` (so `d < 900000`). -/
def generateOTPNat (d : Nat) : Nat := 100000 + d

/-- `generateOTP()` returns the decimal string of that value
(src/src/utils/lib.js lines 67-69). -/
def generateOTP (d : Nat) : String := Nat.repr (generateOTPNat d)

/-- `getExpiry(minutes = 10)` at its (only) default call sites:
`Date.now() + 10 * 60 * 1000` (src/src/utils/lib.js lines 71-73). -/
def getExpiry (now : Nat) : Nat := now + 10 * 60 * 1000

/-- `sendOtp(email)` (src/src/utils/lib.js lines 83-104): throws on an
invalid email, otherwise upserts `{otp, expiresAt}` for the email in one
store operation. The outbound mail dispatch is an external collaborator
with no effect on the stores. -/
def sendOtp (st : OtpStore) (email : String) (d now : Nat) :
    Except String OtpStore :=
  if !isEmail email then .error "Invalid email"
  else .ok (st.upsert email ⟨generateOTP d, getExpiry now⟩)

/-- `verifyOtpCode(email, otp)` (src/src/utils/lib.js lines 106-113):
returns `false` when no record exists, when the stored code differs, or
when `record.expiresAt < new Date()` (a single short-circuit disjunction
in the source, rendered as nested branches); otherwise deletes the
record and returns `true`. -/
def verifyOtpCode (st : OtpStore) (email otp : String) (now : Nat) :
    Bool × OtpStore :=
  match st.findUnique email with
  | none => (false, st)
  | some record =>
    if record.otp != otp then (false, st)
    else if record.expiresAt < now then (false, st)
    else (true, st.deleteMany email)

/-- First store operation of `verifyOtpCode`: the `findUnique` read. -/
def verifyOtpRead (st : OtpStore) (email : String) : Option OtpRec :=
  st.findUnique email

/-- Remainder of `verifyOtpCode` after the read: the in-process checks on
the already-read record, then the separate `deleteMany` against the
store as it is at that later moment. -/
def verifyOtpFinish (record : Option OtpRec) (st : OtpStore)
    (email otp : String) (now : Nat) : Bool × OtpStore :=
  match record with
  | none => (false, st)
  | some r =>
    if r.otp != otp then (false, st)
    else if r.expiresAt < now then (false, st)
    else (true, st.deleteMany email)

/-- Interleaved execution of two concurrent `verifyOtpCode` calls for the
same email in the schedule read-A, read-B, delete-A, delete-B: each call
is its read step followed by its check-and-delete step, with both reads
happening before either delete. Every step is one awaited store
operation, so this schedule is admitted by the request-per-call
concurrency model. -/
def verifyTwoInterleaved (st : OtpStore) (email otp1 otp2 : String)
    (now : Nat) : Bool × Bool × OtpStore :=
  let r1 := verifyOtpRead st email
  let r2 := verifyOtpRead st email
  let (ok1, st1) := verifyOtpFinish r1 st email otp1 now
  let (ok2, st2) := verifyOtpFinish r2 st1 email otp2 now
  (ok1, ok2, st2)

/-- Sequential execution of the same two calls, for contrast. -/
def verifyTwoSequential (st : OtpStore) (email otp1 otp2 : String)
    (now : Nat) : Bool × Bool × OtpStore :=
  let (ok1, st1) := verifyOtpCode st email otp1 now
  let (ok2, st2) := verifyOtpCode st1 email otp2 now
  (ok1, ok2, st2)

/-! ## Credential store (Prisma user table) -/

/-- One row of the `user` table, with the columns the identity flows
touch. The stored `refreshToken` JWT string is modelled by the
structured token; the initial `""` written at creation is `none`. -/
structure UserRec where
  id : Nat
  name : Option String
  profession : Option String
  companyName : Option String
  adminAddress : Option String
  email : String
  mobileNumber : Option String
  googleId : Option String
  isGoogleSignUp : Bool
  isEmailVerified : Bool
  passwordHash : Option String
  role : String
  avatarUrl : Option String
  refreshToken : Option Jwt
deriving DecidableEq, Repr

/-- `prisma.user.findUnique({ where: { email } })` (email is unique). -/
def findUserByEmail (users : List UserRec) (email : String) : Option UserRec :=
  users.find? (fun u => u.email == email)

/-- `prisma.user.update({ where: { email }, data: { isEmailVerified:
true } })`: a Prisma update on a missing unique record rejects, modelled
as an error. -/
def setEmailVerified (users : List UserRec) (email : String) :
    Except String (List UserRec) :=
  match findUserByEmail users email with
  | none => .error "Record to update not found."
  | some _ =>
    .ok (users.map fun u =>
      if u.email == email then { u with isEmailVerified := true } else u)

/-- `prisma.user.update({ where: { id }, data: { refreshToken } })`. -/
def setRefreshToken (users : List UserRec) (id : Nat) (tok : Jwt) :
    List UserRec :=
  users.map fun u => if u.id == id then { u with refreshToken := some tok } else u

/-! ## Request and response shapes of the authentication flows -/

/-- Body fields read by the signup/login/forgot/verify handlers. Absent
fields are `none`. -/
structure AuthReq where
  name : Option String
  profession : Option String
  companyName : Option String
  adminAddress : Option String
  email : Option String
  mobileNumber : Option String
  password : Option String
  googleId : Option String
  otp : Option String
deriving DecidableEq, Repr

/-- An `AuthReq` with every field absent, a base for fixtures. -/
def AuthReq.empty : AuthReq := ⟨none, none, none, none, none, none, none, none, none⟩

/-- Normalized claim returned by `verifyGoogleIdToken`
(src/src/utils/lib.js lines 48-63). -/
structure GoogleUser where
  googleId : String
  email : String
  name : String
  avatarUrl : String
  emailVerified : Bool
deriving DecidableEq, Repr

/-- The external Google token verification call: either a normalized
claim or a thrown verification failure. -/
abbrev GoogleVerify := String → Except String GoogleUser

/-- Observable outcome of an authentication handler. `apiErr` is an
`ApiError.send res status msg` response; `thrown` is an exception that
escapes the handler. Modelled from the spec: the `asyncHandler` wrapper
(not among the available sources) forwards a thrown exception to the
error middleware, which reports a generic server error (section 7 of
the specification). -/
inductive AuthResult
  | apiErr (status : Nat) (msg : String)
  | otpSent (msg : String)
  | created (user : UserRec) (accessToken : Jwt)
  | loggedIn (user : UserRec) (accessToken : Jwt)
  | thrown (msg : String)
deriving DecidableEq, Repr

/-- Role of the identity created by a successful signup outcome, `none`
for every non-creation outcome. -/
def AuthResult.createdRole : AuthResult → Option String
  | .created u _ => some u.role
  | _ => none

/-! ## verifyOtp controller (src/src/controllers/verifyOtp.controller.js) -/

inductive VerifyOtpResult
  | invalidOtp
  | otpExpired
  | verified
  | thrown (msg : String)
deriving DecidableEq, Repr

/-- The standalone `POST /verify-otp` handler: reads the code record;
reports `"Invalid OTP."` when there is no record or the codes differ,
`"OTP has expired."` when `record.expiresAt < new Date()`; otherwise
deletes the record, marks the user verified (a rejecting update when no
such user exists) and reports success. -/
def verifyOtp (otps : OtpStore) (users : List UserRec) (email otp : String)
    (now : Nat) : VerifyOtpResult × OtpStore × List UserRec :=
  match otps.findUnique email with
  | none => (.invalidOtp, otps, users)
  | some record =>
    if record.otp != otp then (.invalidOtp, otps, users)
    else if record.expiresAt < now then (.otpExpired, otps, users)
    else
      let otps1 := otps.deleteMany email
      match setEmailVerified users email with
      | .error e => (.thrown e, otps1, users)
      | .ok users1 => (.verified, otps1, users1)

/-! ## Request authentication gate (src/unnamed/part_000,
authenticateUser middleware) -/

/-- Outcome of the gate. `expiredToken` is the distinct 401 response
`"Access token has expired."`; `unauthorized` is the generic 401
`"Unauthorized access."` that the catch block produces for every other
failure, the missing-token throw included; `ok` is `next()` with
`req.user` set to the decoded claim (the decoded payload carries no
password field, so the copy-and-omit of `password` is the identity). -/
inductive GateResult
  | ok (user : JwtPayload)
  | expiredToken
  | unauthorized
deriving DecidableEq, Repr

/-- The middleware: takes the access token from the cookie, falling back
to the `Authorization` header with its `Bearer ` prefix stripped (the
header is modelled post-strip as an optional token); a missing token
throws, landing in the catch block as the generic 401; `jwt.verify`
against the access secret maps an expiry failure to the distinct
expired message and any other failure to the generic 401. -/
def authenticateUser (cookieToken bearerToken : Option Jwt)
    (accessSecret : String) (now : Nat) : GateResult :=
  match cookieToken.orElse (fun _ => bearerToken) with
  | none => .unauthorized
  | some tok =>
    match jwtVerify tok accessSecret now with
    | .ok decoded => .ok decoded
    | .error .expired => .expiredToken
    | .error .invalid => .unauthorized

/-! ## Signup and login flows (src/unnamed/part_013) -/

/-- Shared tail of the `signup` handler (src/unnamed/part_013 lines
73-133), entered after each entry path has resolved name, email,
googleId, flags and password hash: the mobile-number check, the
`findFirst` uniqueness probe over email / googleId / mobileNumber, the
`create` with the fixed `role: "admin"` and empty refresh token, token
issuance and the refresh-token update. -/
def signupFinish (users : List UserRec) (otps : OtpStore) (req : AuthReq)
    (name : Option String) (email : String) (googleId : Option String)
    (isGoogleSignUp isEmailVerified : Bool) (passwordHash : Option String)
    (nextId : Nat) (accessSecret refreshSecret : String)
    (accessExpiresAt refreshExpiresAt : Nat) :
    AuthResult × List UserRec × OtpStore :=
  if truthy req.mobileNumber && !isMobilePhone ((req.mobileNumber).getD "") then
    (.apiErr 400 "Invalid mobile number.", users, otps)
  else
    let existing := users.find? (fun u =>
      u.email == email
      || (truthy googleId && u.googleId == googleId)
      || (truthy req.mobileNumber && u.mobileNumber == req.mobileNumber))
    if existing.isSome then
      (.apiErr 400 "User already exists with the given email, mobile number, or Google ID.",
        users, otps)
    else
      let newUser : UserRec :=
        { id := nextId, name := name, profession := req.profession,
          companyName := none, adminAddress := none, email := email,
          mobileNumber := req.mobileNumber, googleId := googleId,
          isGoogleSignUp := isGoogleSignUp, isEmailVerified := isEmailVerified,
          passwordHash := passwordHash, role := "admin", avatarUrl := none,
          refreshToken := none }
      let refreshTok := generateRefreshToken nextId email refreshSecret refreshExpiresAt
      let accessTok := generateAccessToken nextId email newUser.role accessSecret accessExpiresAt
      (.created newUser accessTok, setRefreshToken (users ++ [newUser]) nextId refreshTok, otps)

/-- The `signup` handler of src/unnamed/part_013 (lines 22-134).
Entry check, then either the Google path (external verification,
unverified-email rejection, claim fields overriding client input) or
the password path (email format check; with no submitted code,
`sendOtp` and a 200 "code sent" response; with a code, `verifyOtpCode`
then the password strength check and hashing), then `signupFinish`.
`d` is the random draw used if a code is issued, `nextId` the id the
store assigns on create. -/
def signup (gv : GoogleVerify) (users : List UserRec) (otps : OtpStore)
    (req : AuthReq) (now d nextId : Nat) (accessSecret refreshSecret : String)
    (accessExpiresAt refreshExpiresAt : Nat) :
    AuthResult × List UserRec × OtpStore :=
  if !(truthy req.googleId || (truthy req.email && truthy req.password)) then
    (.apiErr 400 "Google sign-up or email + password is required.", users, otps)
  else if truthy req.googleId then
    match gv ((req.googleId).getD "") with
    | .error e => (.thrown e, users, otps)
    | .ok g =>
      if !g.emailVerified then
        (.apiErr 403 "Google account email not verified.", users, otps)
      else
        signupFinish users otps req
          (if truthy req.name then req.name else some g.name)
          g.email (some g.googleId) true false none
          nextId accessSecret refreshSecret accessExpiresAt refreshExpiresAt
  else
    let email := (req.email).getD ""
    if !isEmail email then
      (.apiErr 400 "Invalid email format.", users, otps)
    else if !truthy req.otp then
      match sendOtp otps email d now with
      | .error e => (.thrown e, users, otps)
      | .ok otps1 => (.otpSent "OTP sent to your email.", users, otps1)
    else
      match verifyOtpCode otps email ((req.otp).getD "") now with
      | (false, otps1) => (.apiErr 400 "Invalid or expired OTP.", users, otps1)
      | (true, otps1) =>
        if !isStrongPassword ((req.password).getD "") then
          (.apiErr 400 "Password must be at least 8 characters long and include letters, numbers, and symbols.",
            users, otps1)
        else
          match hashPassword ((req.password).getD "") with
          | .error e => (.thrown e, users, otps1)
          | .ok ph =>
            signupFinish users otps1 req req.name email req.googleId
              false true (some ph)
              nextId accessSecret refreshSecret accessExpiresAt refreshExpiresAt

/-- Shared success tail of `login`: issue a fresh token pair for the
resolved user, persist the refresh token, respond 200. -/
def loginSuccess (users : List UserRec) (u : UserRec)
    (accessSecret refreshSecret : String)
    (accessExpiresAt refreshExpiresAt : Nat) : AuthResult × List UserRec :=
  let refreshTok := generateRefreshToken u.id u.email refreshSecret refreshExpiresAt
  let accessTok := generateAccessToken u.id u.email u.role accessSecret accessExpiresAt
  (.loggedIn u accessTok, setRefreshToken users u.id refreshTok)

/-- The `login` handler of src/unnamed/part_013 (lines 136-193). On the
password path the source guard is
`if (!user || !(await comparePassword(password, user.passwordHash)))`:
a missing user short-circuits to the 401, otherwise `comparePassword`
runs against the stored hash — rejecting (not returning the 401) when
that stored hash is `null`. -/
def login (gv : GoogleVerify) (users : List UserRec) (req : AuthReq)
    (accessSecret refreshSecret : String)
    (accessExpiresAt refreshExpiresAt : Nat) : AuthResult × List UserRec :=
  if !(truthy req.googleId || (truthy req.email && truthy req.password)) then
    (.apiErr 400 "Google login or email + password is required.", users)
  else if truthy req.googleId then
    match gv ((req.googleId).getD "") with
    | .error e => (.thrown e, users)
    | .ok g =>
      if !g.emailVerified then
        (.apiErr 403 "Google account email not verified.", users)
      else
        match findUserByEmail users g.email with
        | none => (.apiErr 404 "Google account not registered. Please sign up first.", users)
        | some u =>
          if !u.isGoogleSignUp then
            (.apiErr 404 "Google account not registered. Please sign up first.", users)
          else loginSuccess users u accessSecret refreshSecret accessExpiresAt refreshExpiresAt
  else
    let email := (req.email).getD ""
    if !isEmail email then (.apiErr 400 "Invalid email format.", users)
    else
      match findUserByEmail users email with
      | none => (.apiErr 401 "Invalid credentials.", users)
      | some u =>
        match comparePassword ((req.password).getD "") u.passwordHash with
        | .error e => (.thrown e, users)
        | .ok okPw =>
          if !okPw then (.apiErr 401 "Invalid credentials.", users)
          else loginSuccess users u accessSecret refreshSecret accessExpiresAt refreshExpiresAt

/-! ## Signup variant of src/src/controllers/user.controller.js -/

/-- The `signup` handler of src/src/controllers/user.controller.js
(lines 20-131): the second registration route of the repository. It has
no one-time-code step, runs the uniqueness probe before the strength
check, trusts a client-supplied `googleId` without external
verification, and likewise creates the user with the fixed
`role: "admin"`. The avatar upload is an external collaborator,
modelled as no avatar. -/
def signupUC (users : List UserRec) (req : AuthReq) (nextId : Nat)
    (accessSecret refreshSecret : String)
    (accessExpiresAt refreshExpiresAt : Nat) : AuthResult × List UserRec :=
  if !truthy req.email || (!truthy req.password && !truthy req.googleId) then
    (.apiErr 400 "Email and password or Google ID are required.", users)
  else if !isEmail ((req.email).getD "") then
    (.apiErr 400 "Invalid email format.", users)
  else if truthy req.mobileNumber && !isMobilePhone ((req.mobileNumber).getD "") then
    (.apiErr 400 "Invalid mobile number.", users)
  else
    let email := (req.email).getD ""
    let existing := users.find? (fun u =>
      u.email == email
      || (truthy req.googleId && u.googleId == req.googleId)
      || (truthy req.mobileNumber && u.mobileNumber == req.mobileNumber))
    if existing.isSome then
      (.apiErr 400 "User already exists with the given email, mobile number, or Google ID.",
        users)
    else
      let proceed : Bool → Bool → Option String → AuthResult × List UserRec :=
        fun isG isV ph =>
          let newUser : UserRec :=
            { id := nextId, name := req.name, profession := req.profession,
              companyName := req.companyName, adminAddress := req.adminAddress,
              email := email, mobileNumber := req.mobileNumber,
              googleId := req.googleId, isGoogleSignUp := isG,
              isEmailVerified := isV, passwordHash := ph, role := "admin",
              avatarUrl := none, refreshToken := none }
          let refreshTok := generateRefreshToken nextId email refreshSecret refreshExpiresAt
          let accessTok := generateAccessToken nextId email newUser.role accessSecret accessExpiresAt
          (.created newUser accessTok, setRefreshToken (users ++ [newUser]) nextId refreshTok)
      if truthy req.googleId then proceed true true none
      else if !isStrongPassword ((req.password).getD "") then
        (.apiErr 400 "Password must be at least 8 characters long and include letters, numbers, and symbols.",
          users)
      else
        match hashPassword ((req.password).getD "") with
        | .error e => (.thrown e, users)
        | .ok ph => proceed false false (some ph)

/-- Role of the identity created by a successful `signupUC` outcome. -/
def createdRoleUC (r : AuthResult × List UserRec) : Option String :=
  r.1.createdRole

/-! ## Concrete fixtures used by witnesses and counterexamples -/

/-- A Google verifier stub that rejects every token, for runs that never
reach the Google path. -/
def gvFail : GoogleVerify := fun _ => .error "invalid_token"

/-- The empty one-time-code table. -/
def emptyOtps : OtpStore := fun _ => none

/-- One live code record for `a@x.com`: code 123456 expiring at 600000
(T + 10 minutes for T = 0). -/
def otpsA : OtpStore :=
  fun e => if e = "a@x.com" then some ⟨"123456", 600000⟩ else none

/-- One live code record for `a@x.com` expiring exactly at instant
1000, to probe the expiry boundary. -/
def otpsBoundary : OtpStore :=
  fun e => if e = "a@x.com" then some ⟨"123456", 1000⟩ else none

/-- One live code record for `new@x.com`. -/
def otpsNew : OtpStore :=
  fun e => if e = "new@x.com" then some ⟨"123456", 600000⟩ else none

/-- A mismatching-code fixture: the stored code differs from 123456. -/
def otpsMismatch : OtpStore :=
  fun e => if e = "a@x.com" then some ⟨"999999", 600000⟩ else none

/-- A password-path account with a stored hash of `Secret1!`. -/
def userAlice : UserRec :=
  { id := 1, name := some "Alice", profession := none, companyName := none,
    adminAddress := none, email := "a@x.com", mobileNumber := none,
    googleId := none, isGoogleSignUp := false, isEmailVerified := true,
    passwordHash := some (bcryptHash "Secret1!"), role := "admin",
    avatarUrl := none, refreshToken := none }

/-- A third-party-path account: no password hash. -/
def userGina : UserRec :=
  { id := 2, name := some "Gina", profession := none, companyName := none,
    adminAddress := none, email := "g@x.com", mobileNumber := none,
    googleId := some "goog-2", isGoogleSignUp := true, isEmailVerified := true,
    passwordHash := none, role := "admin",
    avatarUrl := none, refreshToken := none }

/-- The weak-password signup request of the specification scenario:
`{email: "new@x.com", password: "weak"}`, no code submitted. -/
def reqWeak : AuthReq :=
  { AuthReq.empty with email := some "new@x.com", password := some "weak" }

/-- The same weak-password request with a submitted code. -/
def reqWeakOtp : AuthReq :=
  { AuthReq.empty with
    email := some "new@x.com", password := some "weak", otp := some "123456" }

/-- A complete password-path signup request with a strong password and a
submitted code. -/
def reqStrong : AuthReq :=
  { AuthReq.empty with
    email := some "new@x.com", password := some "Str0ng!Pass1",
    otp := some "123456" }

/-- Login request for an existing email with a wrong password. -/
def reqLoginWrong : AuthReq :=
  { AuthReq.empty with email := some "a@x.com", password := some "Wrong1!" }

/-- Login request for an email with no account. -/
def reqLoginGhost : AuthReq :=
  { AuthReq.empty with email := some "ghost@x.com", password := some "Wrong1!" }

/-- Password-path login request aimed at the third-party-path account. -/
def reqLoginGina : AuthReq :=
  { AuthReq.empty with email := some "g@x.com", password := some "Anything1!" }

/-- The code table after issuing for `a@x.com` at instant 0 with draw 0. -/
def otpsIssued : OtpStore :=
  OtpStore.upsert emptyOtps "a@x.com" ⟨"100000", 600000⟩

/-- The user and access token created by the concrete `reqStrong` signup
run against `otpsNew`. -/
def userNew1 : UserRec :=
  { id := 1, name := none, profession := none, companyName := none,
    adminAddress := none, email := "new@x.com", mobileNumber := none,
    googleId := none, isGoogleSignUp := false, isEmailVerified := true,
    passwordHash := some (bcryptHash "Str0ng!Pass1"), role := "admin",
    avatarUrl := none, refreshToken := none }

/-- The access token issued in that same concrete run. -/
def tokNew1 : Jwt := ⟨⟨1, "new@x.com", some "admin"⟩, "as", 1000⟩

/-- A token signed under the access secret `as` that expired at 5. -/
def cExpired : Jwt := ⟨⟨7, "a@x.com", some "admin"⟩, "as", 5⟩

/-- A token signed under a secret other than `as`. -/
def cWrongSecret : Jwt := ⟨⟨7, "a@x.com", some "admin"⟩, "rs", 1000⟩

/-! ## Helper lemmas -/

theorem isEmail_ne_empty {s : String} (h : isEmail s = true) : s ≠ "" := by
  intro he
  subst he
  exact absurd h (by decide)

theorem truthy_some_of_ne {s : String} (h : s ≠ "") : truthy (some s) = true := by
  simp [truthy, h]

/-! ## C2: one-time-code verification outcomes -/

/-- C2 counterexample. The claim says verification fails with `Expired`
when `now >= expiry` (inclusive boundary) and that no-record and
code-mismatch failures carry distinct kinds. Against the code: with a
stored code `123456` for `a@x.com` expiring exactly at 1000, a verify at
`now = 1000` with the matching code succeeds (the source condition is
the strict `record.expiresAt < new Date()`); and the verify-otp
controller answers the no-record case and the mismatch case with the
very same outcome. -/
theorem c2_counterexample :
    (verifyOtpCode otpsBoundary "a@x.com" "123456" 1000).1 = true
    ∧ (verifyOtp emptyOtps [] "a@x.com" "123456" 0).1
        = (verifyOtp otpsMismatch [] "a@x.com" "123456" 0).1 := by
  decide

/-- C2 (amended): verification fails when no record exists for the email
or when the stored and submitted codes differ — both reported as the
same `invalidOtp` outcome, with `verifyOtpCode` returning a bare
`false` for every failure — and fails as expired exactly when a
matching record has `expiry < now` (strict boundary: a matching code at
`now = expiry` still succeeds); on success the record is deleted and
success is returned. -/
theorem c2_otp_verification_kinds (st : OtpStore) (users : List UserRec)
    (e c : String) (now : Nat) :
    (st e = none →
      (verifyOtp st users e c now).1 = .invalidOtp
      ∧ (verifyOtpCode st e c now).1 = false)
    ∧ (∀ r, st e = some r → r.otp ≠ c →
      (verifyOtp st users e c now).1 = .invalidOtp
      ∧ (verifyOtpCode st e c now).1 = false)
    ∧ (∀ r, st e = some r → r.otp = c → r.expiresAt < now →
      (verifyOtp st users e c now).1 = .otpExpired
      ∧ (verifyOtpCode st e c now).1 = false)
    ∧ (∀ r, st e = some r → r.otp = c → now ≤ r.expiresAt →
      (verifyOtpCode st e c now).1 = true
      ∧ ((verifyOtpCode st e c now).2) e = none) := by
  refine ⟨?_, ?_, ?_, ?_⟩
  · intro h
    simp [verifyOtp, verifyOtpCode, OtpStore.findUnique, h]
  · intro r h hne
    simp [verifyOtp, verifyOtpCode, OtpStore.findUnique, h, bne_iff_ne, hne]
  · intro r h heq hlt
    simp [verifyOtp, verifyOtpCode, OtpStore.findUnique, h, heq, hlt]
  · intro r h heq hle
    simp [verifyOtpCode, OtpStore.findUnique, OtpStore.deleteMany, h, heq,
      Nat.not_lt.mpr hle]

/-- C2 witness: the four amended cases at concrete inputs. -/
theorem c2_witness :
    (verifyOtp emptyOtps [] "a@x.com" "123456" 5).1 = .invalidOtp
    ∧ (verifyOtp otpsMismatch [] "a@x.com" "123456" 5).1 = .invalidOtp
    ∧ (verifyOtp otpsA [] "a@x.com" "123456" 700000).1 = .otpExpired
    ∧ (verifyOtpCode otpsA "a@x.com" "123456" 5).1 = true :=
  ⟨((c2_otp_verification_kinds emptyOtps [] "a@x.com" "123456" 5).1 (by decide)).1,
   ((c2_otp_verification_kinds otpsMismatch [] "a@x.com" "123456" 5).2.1
      ⟨"999999", 600000⟩ (by decide) (by decide)).1,
   ((c2_otp_verification_kinds otpsA [] "a@x.com" "123456" 700000).2.2.1
      ⟨"123456", 600000⟩ (by decide) (by decide) (by decide)).1,
   ((c2_otp_verification_kinds otpsA [] "a@x.com" "123456" 5).2.2.2
      ⟨"123456", 600000⟩ (by decide) (by decide) (by decide)).1⟩

/-! ## C3: issue-then-verify succeeds exactly once -/

/-- C3: after issuing a code for a valid email, verifying with the
delivered code at any instant at or before the expiry succeeds and
removes the record, and a second verification with the same code (at
any instant) fails — classified by the verify controller as the
no-record or mismatch outcome, not as expired. -/
theorem c3_code_single_use (st st1 : OtpStore) (users : List UserRec)
    (e : String) (d now t1 t2 : Nat)
    (he : isEmail e = true)
    (hsend : sendOtp st e d now = .ok st1)
    (ht1 : t1 ≤ getExpiry now) :
    (verifyOtpCode st1 e (generateOTP d) t1).1 = true
    ∧ ((verifyOtpCode st1 e (generateOTP d) t1).2) e = none
    ∧ (verifyOtpCode ((verifyOtpCode st1 e (generateOTP d) t1).2)
        e (generateOTP d) t2).1 = false
    ∧ (verifyOtp ((verifyOtpCode st1 e (generateOTP d) t1).2)
        users e (generateOTP d) t2).1 = .invalidOtp := by
  have hst1 : OtpStore.upsert st e ⟨generateOTP d, getExpiry now⟩ = st1 := by
    simpa [sendOtp, he] using hsend
  subst hst1
  have hnl : ¬ (getExpiry now < t1) := Nat.not_lt.mpr ht1
  refine ⟨?_, ?_, ?_, ?_⟩
  · simp [verifyOtpCode, OtpStore.findUnique, OtpStore.upsert, hnl]
  · simp [verifyOtpCode, OtpStore.findUnique, OtpStore.upsert,
      OtpStore.deleteMany, hnl]
  · simp [verifyOtpCode, OtpStore.findUnique, OtpStore.upsert,
      OtpStore.deleteMany, hnl]
  · simp [verifyOtp, verifyOtpCode, OtpStore.findUnique, OtpStore.upsert,
      OtpStore.deleteMany, hnl]

/-- C3 witness: the specification scenario with the clock shifted to 0:
issue for `a@x.com` at 0 (draw 0 gives code 100000, expiry 600000),
verify at `T + 5` minutes succeeds and deletes, the second verify with
the same code fails as `invalidOtp`. -/
theorem c3_witness :
    (verifyOtpCode otpsIssued "a@x.com" (generateOTP 0) 300000).1 = true
    ∧ ((verifyOtpCode otpsIssued "a@x.com" (generateOTP 0) 300000).2) "a@x.com" = none
    ∧ (verifyOtpCode ((verifyOtpCode otpsIssued "a@x.com" (generateOTP 0) 300000).2)
        "a@x.com" (generateOTP 0) 300001).1 = false
    ∧ (verifyOtp ((verifyOtpCode otpsIssued "a@x.com" (generateOTP 0) 300000).2)
        [] "a@x.com" (generateOTP 0) 300001).1 = .invalidOtp :=
  c3_code_single_use emptyOtps otpsIssued [] "a@x.com" 0 0 300000 300001
    (by decide) rfl (by decide)

/-! ## C4: the consumption race -/

/-- C4: the source performs a `findUnique` read followed by a separate
`deleteMany` (the split below is definitionally the same function), so
in the interleaving where both concurrent calls read before either
deletes, both calls for the same email with the same valid unexpired
code return success — the claimed at-most-one-success property fails —
while the sequential composition lets only the first succeed. -/
theorem c4_concurrent_verify_both_succeed :
    (verifyTwoInterleaved otpsA "a@x.com" "123456" "123456" 0).1 = true
    ∧ (verifyTwoInterleaved otpsA "a@x.com" "123456" "123456" 0).2.1 = true
    ∧ (verifyTwoSequential otpsA "a@x.com" "123456" "123456" 0).1 = true
    ∧ (verifyTwoSequential otpsA "a@x.com" "123456" "123456" 0).2.1 = false
    ∧ ∀ st e o t, verifyOtpCode st e o t
        = verifyOtpFinish (verifyOtpRead st e) st e o t := by
  refine ⟨by decide, by decide, by decide, by decide, ?_⟩
  intro st e o t
  rfl

/-! ## C8: shape of an issued code -/

/-- C8: for a valid email, `sendOtp` stores — in one upsert that
replaces any live record for that email and touches no other email —
the decimal representation of a value in the six-digit numeric space
(between 100000 and 999999, hence within 000000–999999 at fixed width
six with no padding ever needed), with expiry exactly `now` plus 10
minutes. -/
theorem c8_issue_code_space_and_expiry (st : OtpStore) (e : String) (d now : Nat)
    (he : isEmail e = true) (hd : d < 900000) :
    ∃ st1, sendOtp st e d now = .ok st1
      ∧ st1 e = some ⟨generateOTP d, now + 10 * 60 * 1000⟩
      ∧ (∀ x, x ≠ e → st1 x = st x)
      ∧ generateOTP d = Nat.repr (generateOTPNat d)
      ∧ 100000 ≤ generateOTPNat d ∧ generateOTPNat d ≤ 999999 := by
  refine ⟨OtpStore.upsert st e ⟨generateOTP d, getExpiry now⟩,
    by simp [sendOtp, he], by simp [OtpStore.upsert, getExpiry], ?_, rfl, ?_, ?_⟩
  · intro x hx
    simp [OtpStore.upsert, hx]
  · simp [generateOTPNat]
  · simp only [generateOTPNat]
    omega

/-- C8 witness: issuing for `a@x.com` with draw 42 at instant 7. -/
theorem c8_witness :
    ∃ st1, sendOtp emptyOtps "a@x.com" 42 7 = .ok st1
      ∧ st1 "a@x.com" = some ⟨generateOTP 42, 7 + 10 * 60 * 1000⟩
      ∧ (∀ x, x ≠ "a@x.com" → st1 x = emptyOtps x)
      ∧ generateOTP 42 = Nat.repr (generateOTPNat 42)
      ∧ 100000 ≤ generateOTPNat 42 ∧ generateOTPNat 42 ≤ 999999 :=
  c8_issue_code_space_and_expiry emptyOtps "a@x.com" 42 7 (by decide) (by decide)

/-! ## C5: token round-trip and secret separation -/

/-- C5: assuming the access and refresh signing secrets differ, an
access token minted by `generateAccessToken` and accepted by the gate
decodes to the identity it was issued for (and is accepted whenever it
is unexpired), while a token signed under the refresh secret is
rejected by the gate. -/
theorem c5_token_round_trip (id : Nat) (email role aSec rSec : String)
    (aExp rExp now : Nat) (hsec : aSec ≠ rSec) :
    (∀ hdr u, authenticateUser (some (generateAccessToken id email role aSec aExp))
        hdr aSec now = .ok u → u.id = id)
    ∧ (now < aExp →
        authenticateUser (some (generateAccessToken id email role aSec aExp)) none aSec now
          = .ok ⟨id, email, some role⟩)
    ∧ (∀ hdr, authenticateUser (some (generateRefreshToken id email rSec rExp)) hdr aSec now
        = .unauthorized) := by
  refine ⟨?_, ?_, ?_⟩
  · intro hdr u h
    by_cases hexp : aExp ≤ now
    · simp [authenticateUser, Option.orElse, jwtVerify, generateAccessToken, hexp] at h
    · simp [authenticateUser, Option.orElse, jwtVerify, generateAccessToken, hexp] at h
      simp [← h]
  · intro hlt
    simp [authenticateUser, Option.orElse, jwtVerify, generateAccessToken,
      Nat.not_le.mpr hlt]
  · intro hdr
    simp [authenticateUser, Option.orElse, jwtVerify, generateRefreshToken,
      Ne.symm hsec]

/-- C5 witness: concrete distinct secrets, round-trip acceptance and
refresh-token rejection. -/
theorem c5_witness :
    authenticateUser (some (generateAccessToken 7 "a@x.com" "admin" "as" 1000)) none "as" 5
      = .ok ⟨7, "a@x.com", some "admin"⟩
    ∧ authenticateUser (some (generateRefreshToken 7 "a@x.com" "rs" 2000)) none "as" 5
      = .unauthorized :=
  ⟨(c5_token_round_trip 7 "a@x.com" "admin" "as" "rs" 1000 2000 5 (by decide)).2.1
      (by decide),
   (c5_token_round_trip 7 "a@x.com" "admin" "as" "rs" 1000 2000 5 (by decide)).2.2 none⟩

/-! ## C9: request authentication gate -/

/-- C9: the gate prefers the cookie token and falls back to the bearer
header; with no token at all it fails as the generic unauthorized; an
expired token (right secret, expiry passed) gets the distinct expired
outcome, which differs from the generic unauthorized outcome; any other
verification failure (wrong secret) collapses to the generic
unauthorized; and an identity is attached exactly when `jwt.verify`
succeeded, with the decoded payload. -/
theorem c9_gate_extraction_and_failures (c htok : Jwt) (hdr : Option Jwt)
    (aSec : String) (now : Nat) :
    authenticateUser (some c) hdr aSec now = authenticateUser (some c) none aSec now
    ∧ authenticateUser none (some htok) aSec now
        = authenticateUser (some htok) none aSec now
    ∧ authenticateUser none none aSec now = .unauthorized
    ∧ (c.secret = aSec → c.expiresAt ≤ now →
        authenticateUser (some c) hdr aSec now = .expiredToken)
    ∧ (c.secret ≠ aSec → authenticateUser (some c) hdr aSec now = .unauthorized)
    ∧ (∀ u, authenticateUser (some c) hdr aSec now = .ok u →
        jwtVerify c aSec now = .ok u ∧ u = c.payload)
    ∧ GateResult.expiredToken ≠ GateResult.unauthorized := by
  refine ⟨rfl, rfl, rfl, ?_, ?_, ?_, by decide⟩
  · intro hs he
    simp [authenticateUser, Option.orElse, jwtVerify, hs, he]
  · intro hs
    simp [authenticateUser, Option.orElse, jwtVerify, hs]
  · intro u h
    by_cases hs : c.secret = aSec
    · by_cases hexp : c.expiresAt ≤ now
      · simp [authenticateUser, Option.orElse, jwtVerify, hs, hexp] at h
      · simp [authenticateUser, Option.orElse, jwtVerify, hs, hexp] at h ⊢
        simp [← h]
    · simp [authenticateUser, Option.orElse, jwtVerify, hs] at h

/-- C9 witness: an expired access-secret token yields the distinct
expired outcome (cookie taking precedence over a header token), and a
token under the wrong secret yields the generic unauthorized. -/
theorem c9_witness :
    authenticateUser (some cExpired) (some cWrongSecret) "as" 10 = .expiredToken
    ∧ authenticateUser (some cWrongSecret) none "as" 5 = .unauthorized :=
  ⟨(c9_gate_extraction_and_failures cExpired cExpired (some cWrongSecret) "as" 10).2.2.2.1
      rfl (by decide),
   (c9_gate_extraction_and_failures cWrongSecret cWrongSecret none "as" 5).2.2.2.2.1
      (by decide)⟩

/-! ## C1: role assigned at self-service signup -/

/-- Any identity created by the shared signup tail carries role
`admin`. -/
theorem signupFinish_role {users : List UserRec} {otps : OtpStore} {req : AuthReq}
    {name : Option String} {email : String} {googleId : Option String}
    {isG isV : Bool} {ph : Option String} {nextId : Nat} {aS rS : String}
    {aE rE : Nat} {u : UserRec} {tok : Jwt}
    (h : (signupFinish users otps req name email googleId isG isV ph
        nextId aS rS aE rE).1 = .created u tok) : u.role = "admin" := by
  simp only [signupFinish] at h
  repeat' split at h
  all_goals simp at h
  all_goals obtain ⟨hu, -⟩ := h
  all_goals subst hu
  all_goals rfl

/-- C1 counterexample. A concrete self-service password-path signup
request (valid email, valid submitted code, strong password) succeeds
and the created identity carries the role `admin` — the administrative
role of the role enumeration — not a non-privileged role. -/
theorem c1_counterexample :
    AuthResult.createdRole
        (signup gvFail [] otpsNew reqStrong 0 0 1 "as" "rs" 1000 2000).1
      = some "admin" := by
  decide

/-- C1 (amended): every identity created by a successful signup — on
either handler variant, via the password path or the third-party path —
carries the fixed role `admin`; the role is never taken from request
input. -/
theorem c1_signup_role_constant_admin (gv : GoogleVerify) (users : List UserRec)
    (otps : OtpStore) (req : AuthReq) (now d nextId : Nat) (aS rS : String)
    (aE rE : Nat) (u : UserRec) (tok : Jwt) :
    ((signup gv users otps req now d nextId aS rS aE rE).1 = .created u tok
      → u.role = "admin")
    ∧ ((signupUC users req nextId aS rS aE rE).1 = .created u tok
      → u.role = "admin") := by
  constructor
  · intro h
    simp only [signup] at h
    repeat' split at h
    all_goals try exact signupFinish_role h
    all_goals simp at h
  · intro h
    simp only [signupUC] at h
    repeat' split at h
    all_goals simp at h
    all_goals obtain ⟨hu, -⟩ := h
    all_goals subst hu
    all_goals rfl

/-- C1 witness: the concrete run of the counterexample, through the
amended theorem. -/
theorem c1_witness : userNew1.role = "admin" :=
  (c1_signup_role_constant_admin gvFail [] otpsNew reqStrong 0 0 1 "as" "rs"
    1000 2000 userNew1 tokNew1).1 (by decide)

/-! ## C6: login enumeration resistance -/

/-- C6: a password-path login against an existing account whose stored
hash rejects the submitted password, and a password-path login for an
email with no account, produce the very same observable outcome: a 401
`Invalid credentials.` response with the user store untouched. -/
theorem c6_login_indistinguishable (gv : GoogleVerify) (users : List UserRec)
    (e1 p1 e2 p2 : String) (u : UserRec) (aSec rSec : String) (aExp rExp : Nat)
    (he1 : isEmail e1 = true) (hp1 : p1 ≠ "")
    (hfind : findUserByEmail users e1 = some u)
    (hwrong : comparePassword p1 u.passwordHash = .ok false)
    (he2 : isEmail e2 = true) (hp2 : p2 ≠ "")
    (hnone : findUserByEmail users e2 = none) :
    login gv users { AuthReq.empty with email := some e1, password := some p1 }
        aSec rSec aExp rExp
      = (.apiErr 401 "Invalid credentials.", users)
    ∧ login gv users { AuthReq.empty with email := some e2, password := some p2 }
        aSec rSec aExp rExp
      = (.apiErr 401 "Invalid credentials.", users) := by
  constructor
  · simp [login, AuthReq.empty, truthy, he1, hfind, hwrong]
    exact ⟨isEmail_ne_empty he1, hp1⟩
  · simp [login, AuthReq.empty, truthy, he2, hnone]
    exact ⟨isEmail_ne_empty he2, hp2⟩

/-- C6 witness: wrong password against the stored account for `a@x.com`
versus a login for the absent `ghost@x.com`: identical responses. -/
theorem c6_witness :
    login gvFail [userAlice] reqLoginWrong "as" "rs" 1000 2000
      = (.apiErr 401 "Invalid credentials.", [userAlice])
    ∧ login gvFail [userAlice] reqLoginGhost "as" "rs" 1000 2000
      = (.apiErr 401 "Invalid credentials.", [userAlice]) :=
  c6_login_indistinguishable gvFail [userAlice] "a@x.com" "Wrong1!" "ghost@x.com"
    "Wrong1!" userAlice "as" "rs" 1000 2000 (by decide) (by decide) (by decide)
    rfl (by decide) (by decide) (by decide)

/-! ## C7: weak-password signup and store mutation -/

/-- C7 counterexample. The specification scenario
`{email: "new@x.com", password: "weak"}` (no code submitted) does not
fail with BadRequest: the handler issues a code, responds 200
`OTP sent to your email.`, and the durable one-time-code store is
mutated — the record for `new@x.com` goes from absent to present. -/
theorem c7_counterexample :
    (signup gvFail [] emptyOtps reqWeak 0 0 1 "as" "rs" 1000 2000).1
      = .otpSent "OTP sent to your email."
    ∧ ((signup gvFail [] emptyOtps reqWeak 0 0 1 "as" "rs" 1000 2000).2.2) "new@x.com"
      = some ⟨"100000", 600000⟩
    ∧ emptyOtps "new@x.com" = none := by
  decide

/-- C7 (amended): a password-path signup whose password fails the
strength check never creates an Identity — the user store is returned
unchanged and the outcome is never a creation — but the flow does not
fail before mutating the durable store: without a submitted code it
responds 200 after upserting a fresh code record, and with a valid
submitted code the BadRequest is reached only after the code record has
been consumed. -/
theorem c7_weak_password_no_identity (gv : GoogleVerify) (users : List UserRec)
    (otps : OtpStore) (req : AuthReq) (now d nextId : Nat) (aS rS : String)
    (aE rE : Nat)
    (hg : truthy req.googleId = false)
    (hw : isStrongPassword ((req.password).getD "") = false) :
    (signup gv users otps req now d nextId aS rS aE rE).2.1 = users
    ∧ ∀ u tok, (signup gv users otps req now d nextId aS rS aE rE).1
        ≠ .created u tok := by
  constructor
  · simp only [signup]
    repeat' split
    all_goals simp_all
  · intro u tok h
    simp only [signup] at h
    repeat' split at h
    all_goals simp_all

/-- C7 witness: the weak-password request with a valid submitted code —
the code record is consumed, the strength check then rejects, and no
identity is created. -/
theorem c7_witness :
    (signup gvFail [] otpsNew reqWeakOtp 0 0 1 "as" "rs" 1000 2000).2.1 = []
    ∧ ∀ u tok, (signup gvFail [] otpsNew reqWeakOtp 0 0 1 "as" "rs" 1000 2000).1
        ≠ .created u tok :=
  c7_weak_password_no_identity gvFail [] otpsNew reqWeakOtp 0 0 1 "as" "rs"
    1000 2000 (by decide) (by decide)

/-! ## C10: password login against a hashless account -/

/-- C10: a password-path login addressed to an existing identity whose
stored password hash is absent (a third-party-path account) does not
produce the 401 `Invalid credentials.` response: the comparison runs
against the null hash and rejects, so the handler surfaces a thrown
error (a generic server error at the boundary) instead. -/
theorem c10_null_hash_login_throws (gv : GoogleVerify) (users : List UserRec)
    (e p : String) (u : UserRec) (aSec rSec : String) (aExp rExp : Nat)
    (he : isEmail e = true) (hp : p ≠ "")
    (hfind : findUserByEmail users e = some u)
    (hnull : u.passwordHash = none) :
    login gv users { AuthReq.empty with email := some e, password := some p }
        aSec rSec aExp rExp
      = (.thrown "data and hash arguments required", users)
    ∧ (login gv users { AuthReq.empty with email := some e, password := some p }
        aSec rSec aExp rExp).1 ≠ .apiErr 401 "Invalid credentials." := by
  have hmain : login gv users
      { AuthReq.empty with email := some e, password := some p } aSec rSec aExp rExp
      = (.thrown "data and hash arguments required", users) := by
    simp [login, AuthReq.empty, truthy, he, hfind, comparePassword, hnull]
    exact ⟨isEmail_ne_empty he, hp⟩
  exact ⟨hmain, by rw [hmain]; simp⟩

/-- C10 witness: the password login aimed at the third-party account
`g@x.com` (no stored hash) rejects with the thrown bcrypt error. -/
theorem c10_witness :
    login gvFail [userAlice, userGina] reqLoginGina "as" "rs" 1000 2000
      = (.thrown "data and hash arguments required", [userAlice, userGina])
    ∧ (login gvFail [userAlice, userGina] reqLoginGina "as" "rs" 1000 2000).1
      ≠ .apiErr 401 "Invalid credentials." :=
  c10_null_hash_login_throws gvFail [userAlice, userGina] "g@x.com" "Anything1!"
    userGina "as" "rs" 1000 2000 (by decide) (by decide) (by decide) rfl

end Lancify
